import Mathlib

/-!
# Event mediation layer of centrifuge (`events.go`)

A shallow embedding of the declarations of `events.go`: the `Mediator`
hook registry, the nine event contexts, the nine replies and the nine
handler types.

Conventions of the embedding.

* `events.go` uses five types that it does not declare: `context.Context`
  of the Go standard library and `Client`, `Error`, `Disconnect`,
  `Publication` of the package. They are type parameters here
  (`ContextT`, `ClientT`, `ErrorT`, `DisconnectT`, `PublicationT`), so
  every statement holds whatever these types are.
* A Go pointer field (`*Error`, `*Disconnect`, `*Publication`) is an
  `Option`: `none` is the nil pointer.
* A handler slot is a nilable Go func value: an `Option` of a function.
  Handlers are total functions of the invocation scope and the context.
* `[]byte` is a list of bytes; the nil slice and the empty slice are both
  the empty list. `int64` is an integer with its range.
* Struct embedding (`EventContext` inside every context) is `extends`.
* The zero value of a struct has every field at its Go zero value: nil
  pointer, nil func, nil slice, empty string, integer zero.
-/

namespace Centrifuge

/-! ## Basic types -/

/-- A byte, Go `byte`. -/
abbrev Byte : Type := Fin 256

/-- Modelled from the spec: `Raw` is declared outside `events.go`; the spec
describes it as an opaque byte sequence ("Raw payload ... byte sequence"). -/
abbrev Raw : Type := List Byte

/-- Go `int64`: an integer in the signed 64-bit range. -/
def Int64 : Type := { i : Int // -(2 : Int) ^ 63 ≤ i ∧ i < (2 : Int) ^ 63 }

/-- The `int64` zero. -/
def Int64.zero : Int64 := ⟨0, by decide⟩

/-- The integer an `int64` holds. -/
def Int64.toInt (i : Int64) : Int := i.val

/-! ## Contexts and replies, in the order of `events.go` -/

/-- EventContext added to all specific event contexts. -/
structure EventContext (ClientT : Type) where
  Client : ClientT

/-- ConnectContext contains fields related to connect event. -/
structure ConnectContext (ClientT : Type) extends EventContext ClientT

/-- ConnectReply contains fields determining the reaction on connect event. -/
structure ConnectReply (ErrorT DisconnectT : Type) where
  Error : Option ErrorT
  Disconnect : Option DisconnectT

/-- The handler type of the connect event. -/
abbrev ConnectHandler (ContextT ClientT ErrorT DisconnectT : Type) : Type :=
  ContextT → ConnectContext ClientT → ConnectReply ErrorT DisconnectT

/-- DisconnectContext contains fields related to disconnect event. -/
structure DisconnectContext (ClientT DisconnectT : Type) extends EventContext ClientT where
  Disconnect : Option DisconnectT

/-- DisconnectReply contains fields determining the reaction on disconnect
event: it has no field. -/
structure DisconnectReply where

/-- The handler type of the disconnect event. -/
abbrev DisconnectHandler (ContextT ClientT DisconnectT : Type) : Type :=
  ContextT → DisconnectContext ClientT DisconnectT → DisconnectReply

/-- SubscribeContext contains fields related to subscribe event. -/
structure SubscribeContext (ClientT : Type) extends EventContext ClientT where
  Channel : String

/-- SubscribeReply contains fields determining the reaction on subscribe event. -/
structure SubscribeReply (ErrorT DisconnectT : Type) where
  Error : Option ErrorT
  Disconnect : Option DisconnectT

/-- The handler type of the subscribe event. -/
abbrev SubscribeHandler (ContextT ClientT ErrorT DisconnectT : Type) : Type :=
  ContextT → SubscribeContext ClientT → SubscribeReply ErrorT DisconnectT

/-- UnsubscribeContext contains fields related to unsubscribe event. -/
structure UnsubscribeContext (ClientT : Type) extends EventContext ClientT where
  Channel : String

/-- UnsubscribeReply contains fields determining the reaction on unsubscribe
event: it has no field. -/
structure UnsubscribeReply where

/-- The handler type of the unsubscribe event. -/
abbrev UnsubscribeHandler (ContextT ClientT : Type) : Type :=
  ContextT → UnsubscribeContext ClientT → UnsubscribeReply

/-- PublishContext contains fields related to publish event. -/
structure PublishContext (ClientT PublicationT : Type) extends EventContext ClientT where
  Channel : String
  Publication : Option PublicationT

/-- PublishReply contains fields determining the reaction on publish event. -/
structure PublishReply (ErrorT DisconnectT : Type) where
  Error : Option ErrorT
  Disconnect : Option DisconnectT

/-- The handler type of the publish event. -/
abbrev PublishHandler (ContextT ClientT ErrorT DisconnectT PublicationT : Type) : Type :=
  ContextT → PublishContext ClientT PublicationT → PublishReply ErrorT DisconnectT

/-- PresenceContext contains fields related to presence update event. -/
structure PresenceContext (ClientT : Type) extends EventContext ClientT where
  Channels : List String

/-- PresenceReply contains fields determining the reaction on presence
update event. -/
structure PresenceReply (DisconnectT : Type) where
  Disconnect : Option DisconnectT

/-- The handler type of the presence event. -/
abbrev PresenceHandler (ContextT ClientT DisconnectT : Type) : Type :=
  ContextT → PresenceContext ClientT → PresenceReply DisconnectT

/-- RefreshContext contains fields related to refresh event. -/
structure RefreshContext (ClientT : Type) extends EventContext ClientT

/-- RefreshReply contains fields determining the reaction on refresh event. -/
structure RefreshReply where
  Exp : Int64
  Info : List Byte

/-- The handler type of the refresh event. -/
abbrev RefreshHandler (ContextT ClientT : Type) : Type :=
  ContextT → RefreshContext ClientT → RefreshReply

/-- RPCContext contains fields related to rpc request. -/
structure RPCContext (ClientT : Type) extends EventContext ClientT where
  Data : Raw

/-- RPCReply contains fields determining the reaction on rpc request. -/
structure RPCReply (ErrorT DisconnectT : Type) where
  Error : Option ErrorT
  Disconnect : Option DisconnectT
  Data : Raw

/-- RPCHandler must handle incoming command from client. -/
abbrev RPCHandler (ContextT ClientT ErrorT DisconnectT : Type) : Type :=
  ContextT → RPCContext ClientT → RPCReply ErrorT DisconnectT

/-- MessageContext contains fields related to message request. -/
structure MessageContext (ClientT : Type) extends EventContext ClientT where
  Data : Raw

/-- MessageReply contains fields determining the reaction on message request. -/
structure MessageReply (DisconnectT : Type) where
  Disconnect : Option DisconnectT

/-- MessageHandler must handle incoming async message from client. -/
abbrev MessageHandler (ContextT ClientT DisconnectT : Type) : Type :=
  ContextT → MessageContext ClientT → MessageReply DisconnectT

/-! ## The hook registry -/

/-- Mediator allows to proxy Centrifugo events to Go application code. -/
structure Mediator (ContextT ClientT ErrorT DisconnectT PublicationT : Type) where
  Connect : Option (ConnectHandler ContextT ClientT ErrorT DisconnectT)
  Disconnect : Option (DisconnectHandler ContextT ClientT DisconnectT)
  Subscribe : Option (SubscribeHandler ContextT ClientT ErrorT DisconnectT)
  Unsubscribe : Option (UnsubscribeHandler ContextT ClientT)
  Publish : Option (PublishHandler ContextT ClientT ErrorT DisconnectT PublicationT)
  Presence : Option (PresenceHandler ContextT ClientT DisconnectT)
  Refresh : Option (RefreshHandler ContextT ClientT)
  RPC : Option (RPCHandler ContextT ClientT ErrorT DisconnectT)
  Message : Option (MessageHandler ContextT ClientT DisconnectT)

section Definitions

variable {ContextT ClientT ErrorT DisconnectT PublicationT : Type}

/-! ## Zero values

Go gives every type a zero value; for a struct it is the value whose fields
are all at their zero value. -/

/-- The Go value `Mediator{}`: every func field is nil. -/
def Mediator.zero : Mediator ContextT ClientT ErrorT DisconnectT PublicationT :=
  ⟨none, none, none, none, none, none, none, none, none⟩

/-- The Go value `ConnectReply{}`. -/
def ConnectReply.zero : ConnectReply ErrorT DisconnectT := ⟨none, none⟩

/-- The Go value `DisconnectReply{}`. -/
def DisconnectReply.zero : DisconnectReply := ⟨⟩

/-- The Go value `SubscribeReply{}`. -/
def SubscribeReply.zero : SubscribeReply ErrorT DisconnectT := ⟨none, none⟩

/-- The Go value `UnsubscribeReply{}`. -/
def UnsubscribeReply.zero : UnsubscribeReply := ⟨⟩

/-- The Go value `PublishReply{}`. -/
def PublishReply.zero : PublishReply ErrorT DisconnectT := ⟨none, none⟩

/-- The Go value `PresenceReply{}`. -/
def PresenceReply.zero : PresenceReply DisconnectT := ⟨none⟩

/-- The Go value `RefreshReply{}`. -/
def RefreshReply.zero : RefreshReply := ⟨Int64.zero, []⟩

/-- The Go value `RPCReply{}`. -/
def RPCReply.zero : RPCReply ErrorT DisconnectT := ⟨none, none, []⟩

/-- The Go value `MessageReply{}`. -/
def MessageReply.zero : MessageReply DisconnectT := ⟨none⟩

/-! ## Event kinds and slots -/

/-- The nine event kinds, one per field of `Mediator`, in declaration order. -/
inductive EventKind where
  | Connect
  | Disconnect
  | Subscribe
  | Unsubscribe
  | Publish
  | Presence
  | Refresh
  | RPC
  | Message
  deriving DecidableEq, Repr

/-- All event kinds, in declaration order. -/
def EventKind.all : List EventKind :=
  [.Connect, .Disconnect, .Subscribe, .Unsubscribe, .Publish, .Presence, .Refresh, .RPC,
    .Message]

/-- Whether the slot of kind `k` is set (its func field is not nil). -/
def Mediator.isSet (m : Mediator ContextT ClientT ErrorT DisconnectT PublicationT) :
    EventKind → Bool
  | .Connect => m.Connect.isSome
  | .Disconnect => m.Disconnect.isSome
  | .Subscribe => m.Subscribe.isSome
  | .Unsubscribe => m.Unsubscribe.isSome
  | .Publish => m.Publish.isSome
  | .Presence => m.Presence.isSome
  | .Refresh => m.Refresh.isSome
  | .RPC => m.RPC.isSome
  | .Message => m.Message.isSome

/-! ## Reply interpretation and dispatch

`events.go` declares the types only; the code that selects a slot, calls the
handler and acts on its reply belongs to the session runtime of the package.
The definitions of this section follow the specification's description of
that code (its sections 2, 3, 4.1 and 4.3). -/

/-- Modelled from the spec: the net effect of one event dispatch, "exactly
one of {no special action, business error reported, connection
disconnected}". The Reply Interpreter that computes it is not in
`events.go`. -/
inductive NetEffect (ErrorT DisconnectT : Type) where
  | noAction
  | businessError (e : ErrorT)
  | disconnected (d : DisconnectT)

/-- Modelled from the spec: how the Reply Interpreter, which is not in
`events.go`, reads the error and disconnect fields of a reply: "if a reply
carries both an error and a disconnect instruction, disconnect semantics
win"; an error alone is reported; neither is no special action. The order
of the two tests is the one of the invariant of section 3 and of testable
property 1 ("if a reply's disconnect instruction is set, the connection is
terminated"), which speak of the reply with both fields set; the Connect
item of section 4.3 words the error test first ("if error set ... else if
disconnect set"). -/
def interpret (err : Option ErrorT) (disc : Option DisconnectT) :
    NetEffect ErrorT DisconnectT :=
  match disc, err with
  | some d, _ => .disconnected d
  | none, some e => .businessError e
  | none, none => .noAction

/-- Modelled from the spec: the Reply Interpreter on a connect reply
(error: reject; disconnect: close; else accept). Not in `events.go`. -/
def ConnectReply.effect (r : ConnectReply ErrorT DisconnectT) :
    NetEffect ErrorT DisconnectT :=
  interpret r.Error r.Disconnect

/-- Modelled from the spec: the Reply Interpreter on a disconnect reply,
"reply is effect-free". Not in `events.go`. -/
def DisconnectReply.effect (_ : DisconnectReply) : NetEffect ErrorT DisconnectT :=
  .noAction

/-- Modelled from the spec: the Reply Interpreter on a subscribe reply
(error: deny; disconnect: deny and terminate; neither: succeed). Not in
`events.go`. -/
def SubscribeReply.effect (r : SubscribeReply ErrorT DisconnectT) :
    NetEffect ErrorT DisconnectT :=
  interpret r.Error r.Disconnect

/-- Modelled from the spec: the Reply Interpreter on an unsubscribe reply,
"effect-free notification". Not in `events.go`. -/
def UnsubscribeReply.effect (_ : UnsubscribeReply) : NetEffect ErrorT DisconnectT :=
  .noAction

/-- Modelled from the spec: the Reply Interpreter on a publish reply
(error: reject; disconnect: reject and terminate; neither: proceed). Not in
`events.go`. -/
def PublishReply.effect (r : PublishReply ErrorT DisconnectT) :
    NetEffect ErrorT DisconnectT :=
  interpret r.Error r.Disconnect

/-- Modelled from the spec: the Reply Interpreter on a presence reply
(disconnect: terminate; no disconnect: proceed). Not in `events.go`. -/
def PresenceReply.effect (r : PresenceReply DisconnectT) : NetEffect ErrorT DisconnectT :=
  interpret none r.Disconnect

/-- Modelled from the spec: the Reply Interpreter on a refresh reply, which
has "no error field" and so never asks for a special action. Not in
`events.go`. -/
def RefreshReply.effect (_ : RefreshReply) : NetEffect ErrorT DisconnectT :=
  .noAction

/-- Modelled from the spec: the Reply Interpreter on an RPC reply (error:
respond with the error; disconnect: terminate; neither: respond with the
data). Not in `events.go`. -/
def RPCReply.effect (r : RPCReply ErrorT DisconnectT) : NetEffect ErrorT DisconnectT :=
  interpret r.Error r.Disconnect

/-- Modelled from the spec: the Reply Interpreter on a message reply
(disconnect: terminate; otherwise effect-free). Not in `events.go`. -/
def MessageReply.effect (r : MessageReply DisconnectT) : NetEffect ErrorT DisconnectT :=
  interpret none r.Disconnect

/-- Modelled from the spec: "Reply (9 variants)", the reply of any of the
nine event kinds, as the Reply Interpreter (not in `events.go`) receives
it. -/
inductive Reply (ErrorT DisconnectT : Type) where
  | Connect (r : ConnectReply ErrorT DisconnectT)
  | Disconnect (r : DisconnectReply)
  | Subscribe (r : SubscribeReply ErrorT DisconnectT)
  | Unsubscribe (r : UnsubscribeReply)
  | Publish (r : PublishReply ErrorT DisconnectT)
  | Presence (r : PresenceReply DisconnectT)
  | Refresh (r : RefreshReply)
  | RPC (r : RPCReply ErrorT DisconnectT)
  | Message (r : MessageReply DisconnectT)

/-- Modelled from the spec: the net effect the Reply Interpreter (not in
`events.go`) gives a reply of any kind. -/
def Reply.effect : Reply ErrorT DisconnectT → NetEffect ErrorT DisconnectT
  | .Connect r => r.effect
  | .Disconnect r => r.effect
  | .Subscribe r => r.effect
  | .Unsubscribe r => r.effect
  | .Publish r => r.effect
  | .Presence r => r.effect
  | .Refresh r => r.effect
  | .RPC r => r.effect
  | .Message r => r.effect

/-- The net effect is "no special action". -/
def NetEffect.isNoAction : NetEffect ErrorT DisconnectT → Bool
  | .noAction => true
  | _ => false

/-- The net effect is "business error reported". -/
def NetEffect.isBusinessError : NetEffect ErrorT DisconnectT → Bool
  | .businessError _ => true
  | _ => false

/-- The net effect is "connection disconnected". -/
def NetEffect.isDisconnected : NetEffect ErrorT DisconnectT → Bool
  | .disconnected _ => true
  | _ => false

/-- Modelled from the spec: what the Reply Interpreter (not in `events.go`)
hands to the runtime for one dispatch: the net effect, "and, for
data-bearing events, ... a response payload" (`response`, RPC only), the
refresh parameters the runtime applies (`refresh`; `none` is no change), and
the publication that proceeds to the broker (`fanOut`; `none` when nothing
is published). -/
structure Outcome (ErrorT DisconnectT PublicationT : Type) where
  effect : NetEffect ErrorT DisconnectT
  response : Option Raw
  refresh : Option (Int64 × List Byte)
  fanOut : Option PublicationT

/-- Modelled from the spec: an outcome of the Reply Interpreter (not in
`events.go`) that carries a net effect and nothing else. -/
def Outcome.ofEffect (e : NetEffect ErrorT DisconnectT) :
    Outcome ErrorT DisconnectT PublicationT :=
  ⟨e, none, none, none⟩

/-- Modelled from the spec: "Event Context (9 variants)", the context of
any of the nine event kinds, as the runtime's `dispatch(eventKind, context)`
(not in `events.go`) receives it. -/
inductive Event (ClientT DisconnectT PublicationT : Type) where
  | Connect (c : ConnectContext ClientT)
  | Disconnect (c : DisconnectContext ClientT DisconnectT)
  | Subscribe (c : SubscribeContext ClientT)
  | Unsubscribe (c : UnsubscribeContext ClientT)
  | Publish (c : PublishContext ClientT PublicationT)
  | Presence (c : PresenceContext ClientT)
  | Refresh (c : RefreshContext ClientT)
  | RPC (c : RPCContext ClientT)
  | Message (c : MessageContext ClientT)

/-- The kind of an event. -/
def Event.kind : Event ClientT DisconnectT PublicationT → EventKind
  | .Connect _ => .Connect
  | .Disconnect _ => .Disconnect
  | .Subscribe _ => .Subscribe
  | .Unsubscribe _ => .Unsubscribe
  | .Publish _ => .Publish
  | .Presence _ => .Presence
  | .Refresh _ => .Refresh
  | .RPC _ => .RPC
  | .Message _ => .Message

/-- Modelled from the spec: the default policy of section 4.1, applied by
the runtime (not in `events.go`) when the slot of the event is absent.
Connect, Subscribe: accept; Disconnect, Unsubscribe, Presence, Message: no
side effect; Publish: allow the publication unchanged; Refresh: no change;
RPC: reply with the "not implemented" business error, the parameter
`notImplemented` (a constant of the package that `events.go` does not
declare). -/
def defaultPolicy (notImplemented : ErrorT) :
    Event ClientT DisconnectT PublicationT → Outcome ErrorT DisconnectT PublicationT
  | .Connect _ => .ofEffect .noAction
  | .Disconnect _ => .ofEffect .noAction
  | .Subscribe _ => .ofEffect .noAction
  | .Unsubscribe _ => .ofEffect .noAction
  | .Publish c => ⟨.noAction, none, none, c.Publication⟩
  | .Presence _ => .ofEffect .noAction
  | .Refresh _ => .ofEffect .noAction
  | .RPC _ => .ofEffect (.businessError notImplemented)
  | .Message _ => .ofEffect .noAction

/-- Modelled from the spec: the Reply Interpreter (not in `events.go`) on
the reply of a publish handler: "neither → publish proceeds to the broker
unchanged", otherwise the publish is rejected and nothing is fanned out. -/
def interpretPublish (c : PublishContext ClientT PublicationT)
    (r : PublishReply ErrorT DisconnectT) : Outcome ErrorT DisconnectT PublicationT :=
  match r.effect with
  | .noAction => ⟨.noAction, none, none, c.Publication⟩
  | e => .ofEffect e

/-- Modelled from the spec: the Reply Interpreter (not in `events.go`) on
the reply of a refresh handler: the reply supplies the expiration timestamp
and the credential info, and "an all-zero/empty reply means do not
extend". -/
def interpretRefresh (r : RefreshReply) : Outcome ErrorT DisconnectT PublicationT :=
  if r.Exp.toInt = 0 ∧ r.Info = [] then .ofEffect .noAction
  else ⟨.noAction, none, some (r.Exp, r.Info), none⟩

/-- Modelled from the spec: the Reply Interpreter (not in `events.go`) on
the reply of an RPC handler: "error → respond to caller with error, no data;
disconnect → terminate ...; neither → respond with the reply's raw data
payload". -/
def interpretRPC (r : RPCReply ErrorT DisconnectT) :
    Outcome ErrorT DisconnectT PublicationT :=
  match r.effect with
  | .noAction => ⟨.noAction, some r.Data, none, none⟩
  | e => .ofEffect e

/-- Modelled from the spec: `dispatch(eventKind, context)` of the runtime
(not in `events.go`): select the slot of the event; "if empty, applies a
default policy"; if present, invoke the handler with the invocation scope
and the context and pass the returned reply to the Reply Interpreter. -/
def dispatch (notImplemented : ErrorT)
    (m : Mediator ContextT ClientT ErrorT DisconnectT PublicationT) (ctx : ContextT)
    (ev : Event ClientT DisconnectT PublicationT) : Outcome ErrorT DisconnectT PublicationT :=
  match ev with
  | .Connect c =>
    match m.Connect with
    | none => defaultPolicy notImplemented ev
    | some h => .ofEffect (h ctx c).effect
  | .Disconnect c =>
    match m.Disconnect with
    | none => defaultPolicy notImplemented ev
    | some h => .ofEffect (h ctx c).effect
  | .Subscribe c =>
    match m.Subscribe with
    | none => defaultPolicy notImplemented ev
    | some h => .ofEffect (h ctx c).effect
  | .Unsubscribe c =>
    match m.Unsubscribe with
    | none => defaultPolicy notImplemented ev
    | some h => .ofEffect (h ctx c).effect
  | .Publish c =>
    match m.Publish with
    | none => defaultPolicy notImplemented ev
    | some h => interpretPublish c (h ctx c)
  | .Presence c =>
    match m.Presence with
    | none => defaultPolicy notImplemented ev
    | some h => .ofEffect (h ctx c).effect
  | .Refresh c =>
    match m.Refresh with
    | none => defaultPolicy notImplemented ev
    | some h => interpretRefresh (h ctx c)
  | .RPC c =>
    match m.RPC with
    | none => defaultPolicy notImplemented ev
    | some h => interpretRPC (h ctx c)
  | .Message c =>
    match m.Message with
    | none => defaultPolicy notImplemented ev
    | some h => .ofEffect (h ctx c).effect

/-! ## Concrete registries

Instances used to evaluate the definitions: the invocation scope, the client
and the publication are `Unit`, errors and disconnect instructions are
strings. -/

/-- A registry whose only handler is a connect handler that sets both an
error and a disconnect instruction. -/
def conflictingConnectMediator : Mediator Unit Unit String String Unit :=
  { Mediator.zero with Connect := some (fun _ _ => ⟨some "denied", some "shutdown"⟩) }

/-- A registry whose only handler is an RPC handler that answers every
request, whatever its payload, with the bytes 1, 2, 3 and sets neither an
error nor a disconnect instruction. -/
def constantRPCMediator : Mediator Unit Unit String String Unit :=
  { Mediator.zero with RPC := some (fun _ _ => ⟨none, none, [1, 2, 3]⟩) }

end Definitions

section Theorems

variable {ContextT ClientT ErrorT DisconnectT PublicationT : Type}

/-! ## The hook registry -/

/-- C1: the Mediator has exactly nine handler slots (it is the tuple of its
nine fields, one per event kind, and the kinds are nine), the zero-value
Mediator has all nine absent, every subset of the nine kinds is the set of
slots of some Mediator, and setting or clearing one slot leaves the other
eight as they were. -/
theorem mediator_nine_independent_slots :
    (∀ m : Mediator ContextT ClientT ErrorT DisconnectT PublicationT,
      m = ⟨m.Connect, m.Disconnect, m.Subscribe, m.Unsubscribe, m.Publish, m.Presence,
        m.Refresh, m.RPC, m.Message⟩) ∧
    (EventKind.all.length = 9 ∧ EventKind.all.Nodup ∧ ∀ k, k ∈ EventKind.all) ∧
    ((Mediator.zero : Mediator ContextT ClientT ErrorT DisconnectT PublicationT).Connect = none ∧
      (Mediator.zero : Mediator ContextT ClientT ErrorT DisconnectT PublicationT).Disconnect
        = none ∧
      (Mediator.zero : Mediator ContextT ClientT ErrorT DisconnectT PublicationT).Subscribe
        = none ∧
      (Mediator.zero : Mediator ContextT ClientT ErrorT DisconnectT PublicationT).Unsubscribe
        = none ∧
      (Mediator.zero : Mediator ContextT ClientT ErrorT DisconnectT PublicationT).Publish
        = none ∧
      (Mediator.zero : Mediator ContextT ClientT ErrorT DisconnectT PublicationT).Presence
        = none ∧
      (Mediator.zero : Mediator ContextT ClientT ErrorT DisconnectT PublicationT).Refresh
        = none ∧
      (Mediator.zero : Mediator ContextT ClientT ErrorT DisconnectT PublicationT).RPC = none ∧
      (Mediator.zero : Mediator ContextT ClientT ErrorT DisconnectT PublicationT).Message
        = none) ∧
    (∀ k, (Mediator.zero : Mediator ContextT ClientT ErrorT DisconnectT PublicationT).isSet k
      = false) ∧
    (∀ S : EventKind → Bool,
      ∃ m : Mediator ContextT ClientT ErrorT DisconnectT PublicationT, ∀ k, m.isSet k = S k) ∧
    (∀ (m : Mediator ContextT ClientT ErrorT DisconnectT PublicationT) x,
      { m with Connect := x } = ⟨x, m.Disconnect, m.Subscribe, m.Unsubscribe, m.Publish,
        m.Presence, m.Refresh, m.RPC, m.Message⟩) ∧
    (∀ (m : Mediator ContextT ClientT ErrorT DisconnectT PublicationT) x,
      { m with Disconnect := x } = ⟨m.Connect, x, m.Subscribe, m.Unsubscribe, m.Publish,
        m.Presence, m.Refresh, m.RPC, m.Message⟩) ∧
    (∀ (m : Mediator ContextT ClientT ErrorT DisconnectT PublicationT) x,
      { m with Subscribe := x } = ⟨m.Connect, m.Disconnect, x, m.Unsubscribe, m.Publish,
        m.Presence, m.Refresh, m.RPC, m.Message⟩) ∧
    (∀ (m : Mediator ContextT ClientT ErrorT DisconnectT PublicationT) x,
      { m with Unsubscribe := x } = ⟨m.Connect, m.Disconnect, m.Subscribe, x, m.Publish,
        m.Presence, m.Refresh, m.RPC, m.Message⟩) ∧
    (∀ (m : Mediator ContextT ClientT ErrorT DisconnectT PublicationT)
        (x : Option (PublishHandler ContextT ClientT ErrorT DisconnectT PublicationT)),
      { m with Publish := x } = ⟨m.Connect, m.Disconnect, m.Subscribe, m.Unsubscribe, x,
        m.Presence, m.Refresh, m.RPC, m.Message⟩) ∧
    (∀ (m : Mediator ContextT ClientT ErrorT DisconnectT PublicationT) x,
      { m with Presence := x } = ⟨m.Connect, m.Disconnect, m.Subscribe, m.Unsubscribe,
        m.Publish, x, m.Refresh, m.RPC, m.Message⟩) ∧
    (∀ (m : Mediator ContextT ClientT ErrorT DisconnectT PublicationT) x,
      { m with Refresh := x } = ⟨m.Connect, m.Disconnect, m.Subscribe, m.Unsubscribe,
        m.Publish, m.Presence, x, m.RPC, m.Message⟩) ∧
    (∀ (m : Mediator ContextT ClientT ErrorT DisconnectT PublicationT) x,
      { m with RPC := x } = ⟨m.Connect, m.Disconnect, m.Subscribe, m.Unsubscribe,
        m.Publish, m.Presence, m.Refresh, x, m.Message⟩) ∧
    (∀ (m : Mediator ContextT ClientT ErrorT DisconnectT PublicationT) x,
      { m with Message := x } = ⟨m.Connect, m.Disconnect, m.Subscribe, m.Unsubscribe,
        m.Publish, m.Presence, m.Refresh, m.RPC, x⟩) := by
  refine ⟨fun m => rfl, ⟨rfl, by decide, fun k => by cases k <;> decide⟩,
    ⟨rfl, rfl, rfl, rfl, rfl, rfl, rfl, rfl, rfl⟩, fun k => by cases k <;> rfl, ?_,
    fun _ _ => rfl, fun _ _ => rfl, fun _ _ => rfl, fun _ _ => rfl, fun _ _ => rfl,
    fun _ _ => rfl, fun _ _ => rfl, fun _ _ => rfl, fun _ _ => rfl⟩
  intro S
  refine ⟨⟨if S .Connect then some (fun _ _ => ConnectReply.zero) else none,
    if S .Disconnect then some (fun _ _ => DisconnectReply.zero) else none,
    if S .Subscribe then some (fun _ _ => SubscribeReply.zero) else none,
    if S .Unsubscribe then some (fun _ _ => UnsubscribeReply.zero) else none,
    if S .Publish then some (fun _ _ => PublishReply.zero) else none,
    if S .Presence then some (fun _ _ => PresenceReply.zero) else none,
    if S .Refresh then some (fun _ _ => RefreshReply.zero) else none,
    if S .RPC then some (fun _ _ => RPCReply.zero) else none,
    if S .Message then some (fun _ _ => MessageReply.zero) else none⟩, ?_⟩
  intro k
  cases k <;> simp only [Mediator.isSet] <;> split <;> simp_all

/-! ## Replies -/

/-- C4: MessageReply and PresenceReply have the disconnect instruction as
their only field (a reply is the record of its Disconnect, and two replies
with equal Disconnect are equal); DisconnectReply and UnsubscribeReply have
no field, so any two values of either are equal and every function of such
a reply is constant. -/
theorem notification_replies_carry_only_disconnect :
    (∀ r : MessageReply DisconnectT, r = ⟨r.Disconnect⟩) ∧
    (∀ a b : MessageReply DisconnectT, a.Disconnect = b.Disconnect → a = b) ∧
    (∀ r : PresenceReply DisconnectT, r = ⟨r.Disconnect⟩) ∧
    (∀ a b : PresenceReply DisconnectT, a.Disconnect = b.Disconnect → a = b) ∧
    (∀ r : DisconnectReply, r = ⟨⟩) ∧
    (∀ a b : DisconnectReply, a = b) ∧
    (∀ r : UnsubscribeReply, r = ⟨⟩) ∧
    (∀ a b : UnsubscribeReply, a = b) ∧
    (∀ (α : Type) (f : DisconnectReply → α) (a b : DisconnectReply), f a = f b) ∧
    (∀ (α : Type) (f : UnsubscribeReply → α) (a b : UnsubscribeReply), f a = f b) := by
  refine ⟨fun _ => rfl, ?_, fun _ => rfl, ?_, fun _ => rfl, fun _ _ => rfl, fun _ => rfl,
    fun _ _ => rfl, fun _ _ _ _ => rfl, fun _ _ _ _ => rfl⟩
  · rintro ⟨a⟩ ⟨b⟩ h
    exact congrArg MessageReply.mk h
  · rintro ⟨a⟩ ⟨b⟩ h
    exact congrArg PresenceReply.mk h
/-- C6: RefreshReply consists of exactly the expiration timestamp Exp, an
integer of the signed 64-bit range, and the credential bytes Info: a reply
is the record of the two, two replies with equal Exp and equal Info are
equal, every pair is the content of a reply, and everything that can be
read off a reply (an error or a disconnect request included) is a function
of the pair alone. -/
theorem refresh_reply_is_exp_and_info :
    (∀ r : RefreshReply, r = ⟨r.Exp, r.Info⟩) ∧
    (∀ a b : RefreshReply, a.Exp = b.Exp → a.Info = b.Info → a = b) ∧
    (∀ (e : Int64) (i : List Byte), (RefreshReply.mk e i).Exp = e ∧
      (RefreshReply.mk e i).Info = i) ∧
    (∀ r : RefreshReply, -(2 : Int) ^ 63 ≤ r.Exp.toInt ∧ r.Exp.toInt < (2 : Int) ^ 63) ∧
    (∀ (α : Type) (f : RefreshReply → α),
      ∃ g : Int64 → List Byte → α, ∀ r : RefreshReply, f r = g r.Exp r.Info) := by
  refine ⟨fun _ => rfl, ?_, fun _ _ => ⟨rfl, rfl⟩, fun r => r.Exp.property, ?_⟩
  · rintro ⟨e, i⟩ ⟨e', i'⟩ h₁ h₂
    simp only at h₁ h₂
    rw [h₁, h₂]
  · intro α f
    exact ⟨fun e i => f ⟨e, i⟩, fun _ => rfl⟩

/-- C10: the zero value of every reply type requests no special action:
the zero ConnectReply, SubscribeReply, PublishReply and RPCReply have Error
and Disconnect absent, the zero PresenceReply and MessageReply have
Disconnect absent, the zero RPCReply has empty Data, the zero RefreshReply
has Exp 0 and empty Info; so a handler invocation that returns the zero
reply returns a reply with no error and no disconnect set. -/
theorem zero_replies_request_nothing :
    ((ConnectReply.zero : ConnectReply ErrorT DisconnectT).Error = none ∧
      (ConnectReply.zero : ConnectReply ErrorT DisconnectT).Disconnect = none) ∧
    ((SubscribeReply.zero : SubscribeReply ErrorT DisconnectT).Error = none ∧
      (SubscribeReply.zero : SubscribeReply ErrorT DisconnectT).Disconnect = none) ∧
    ((PublishReply.zero : PublishReply ErrorT DisconnectT).Error = none ∧
      (PublishReply.zero : PublishReply ErrorT DisconnectT).Disconnect = none) ∧
    ((RPCReply.zero : RPCReply ErrorT DisconnectT).Error = none ∧
      (RPCReply.zero : RPCReply ErrorT DisconnectT).Disconnect = none ∧
      (RPCReply.zero : RPCReply ErrorT DisconnectT).Data = []) ∧
    (PresenceReply.zero : PresenceReply DisconnectT).Disconnect = none ∧
    (MessageReply.zero : MessageReply DisconnectT).Disconnect = none ∧
    (RefreshReply.zero.Exp.toInt = 0 ∧ RefreshReply.zero.Info = []) ∧
    (∀ (h : ConnectHandler ContextT ClientT ErrorT DisconnectT) ctx c,
      h ctx c = ConnectReply.zero → (h ctx c).Error = none ∧ (h ctx c).Disconnect = none) ∧
    (∀ (h : SubscribeHandler ContextT ClientT ErrorT DisconnectT) ctx c,
      h ctx c = SubscribeReply.zero → (h ctx c).Error = none ∧ (h ctx c).Disconnect = none) ∧
    (∀ (h : PublishHandler ContextT ClientT ErrorT DisconnectT PublicationT) ctx c,
      h ctx c = PublishReply.zero → (h ctx c).Error = none ∧ (h ctx c).Disconnect = none) ∧
    (∀ (h : RPCHandler ContextT ClientT ErrorT DisconnectT) ctx c,
      h ctx c = RPCReply.zero → (h ctx c).Error = none ∧ (h ctx c).Disconnect = none) ∧
    (∀ (h : PresenceHandler ContextT ClientT DisconnectT) ctx c,
      h ctx c = PresenceReply.zero → (h ctx c).Disconnect = none) ∧
    (∀ (h : MessageHandler ContextT ClientT DisconnectT) ctx c,
      h ctx c = MessageReply.zero → (h ctx c).Disconnect = none) := by
  refine ⟨⟨rfl, rfl⟩, ⟨rfl, rfl⟩, ⟨rfl, rfl⟩, ⟨rfl, rfl, rfl⟩, rfl, rfl, ⟨rfl, rfl⟩,
    ?_, ?_, ?_, ?_, ?_, ?_⟩ <;> intro h ctx c hz <;> rw [hz] <;> first | rfl | exact ⟨rfl, rfl⟩

/-! ## Contexts -/

/-- C7: each of the nine context types carries a Client through the shared
EventContext (the Client of a context is the Client of its embedded
EventContext, and a context built on a client carries that client), and
ConnectContext and RefreshContext carry nothing else: two of them with the
same Client are equal. -/
theorem every_context_carries_client :
    (∀ c : ConnectContext ClientT, c.Client = c.toEventContext.Client) ∧
    (∀ c : DisconnectContext ClientT DisconnectT, c.Client = c.toEventContext.Client) ∧
    (∀ c : SubscribeContext ClientT, c.Client = c.toEventContext.Client) ∧
    (∀ c : UnsubscribeContext ClientT, c.Client = c.toEventContext.Client) ∧
    (∀ c : PublishContext ClientT PublicationT, c.Client = c.toEventContext.Client) ∧
    (∀ c : PresenceContext ClientT, c.Client = c.toEventContext.Client) ∧
    (∀ c : RefreshContext ClientT, c.Client = c.toEventContext.Client) ∧
    (∀ c : RPCContext ClientT, c.Client = c.toEventContext.Client) ∧
    (∀ c : MessageContext ClientT, c.Client = c.toEventContext.Client) ∧
    (∀ cl : ClientT, (ConnectContext.mk ⟨cl⟩).Client = cl) ∧
    (∀ (cl : ClientT) (d : Option DisconnectT), (DisconnectContext.mk ⟨cl⟩ d).Client = cl) ∧
    (∀ (cl : ClientT) (ch : String), (SubscribeContext.mk ⟨cl⟩ ch).Client = cl) ∧
    (∀ (cl : ClientT) (ch : String), (UnsubscribeContext.mk ⟨cl⟩ ch).Client = cl) ∧
    (∀ (cl : ClientT) (ch : String) (p : Option PublicationT),
      (PublishContext.mk ⟨cl⟩ ch p).Client = cl) ∧
    (∀ (cl : ClientT) (chs : List String), (PresenceContext.mk ⟨cl⟩ chs).Client = cl) ∧
    (∀ cl : ClientT, (RefreshContext.mk ⟨cl⟩).Client = cl) ∧
    (∀ (cl : ClientT) (data : Raw), (RPCContext.mk ⟨cl⟩ data).Client = cl) ∧
    (∀ (cl : ClientT) (data : Raw), (MessageContext.mk ⟨cl⟩ data).Client = cl) ∧
    (∀ c : ConnectContext ClientT, c = ⟨⟨c.Client⟩⟩) ∧
    (∀ a b : ConnectContext ClientT, a.Client = b.Client → a = b) ∧
    (∀ c : RefreshContext ClientT, c = ⟨⟨c.Client⟩⟩) ∧
    (∀ a b : RefreshContext ClientT, a.Client = b.Client → a = b) := by
  refine ⟨fun _ => rfl, fun _ => rfl, fun _ => rfl, fun _ => rfl, fun _ => rfl, fun _ => rfl,
    fun _ => rfl, fun _ => rfl, fun _ => rfl, fun _ => rfl, fun _ _ => rfl, fun _ _ => rfl,
    fun _ _ => rfl, fun _ _ _ => rfl, fun _ _ => rfl, fun _ => rfl, fun _ _ => rfl,
    fun _ _ => rfl, fun _ => rfl, ?_, fun _ => rfl, ?_⟩
  · rintro ⟨⟨a⟩⟩ ⟨⟨b⟩⟩ h
    simp only at h
    rw [h]
  · rintro ⟨⟨a⟩⟩ ⟨⟨b⟩⟩ h
    simp only at h
    rw [h]

/-- Counterexample to C8: a SubscribeContext and an UnsubscribeContext
whose Channel is the empty string; so "Channel is non-empty for every
value" is false for both types. -/
theorem channel_nonempty_counterexample :
    (SubscribeContext.mk (EventContext.mk ()) "").Channel = "" ∧
    (UnsubscribeContext.mk (EventContext.mk ()) "").Channel = "" ∧
    ¬ (∀ c : SubscribeContext Unit, c.Channel ≠ "") ∧
    ¬ (∀ c : UnsubscribeContext Unit, c.Channel ≠ "") :=
  ⟨rfl, rfl, fun h => h ⟨⟨()⟩, ""⟩ rfl, fun h => h ⟨⟨()⟩, ""⟩ rfl⟩

/-- C8, amended: the Channel of a SubscribeContext or UnsubscribeContext is
a string the type does not constrain: for every client and every string,
the empty one included, the context built from them has that string as its
Channel; so Channel is non-empty exactly when the channel name the context
was built from is non-empty. -/
theorem channel_is_the_given_string :
    (∀ (cl : ClientT) (ch : String), (SubscribeContext.mk ⟨cl⟩ ch).Channel = ch) ∧
    (∀ (cl : ClientT) (ch : String), (UnsubscribeContext.mk ⟨cl⟩ ch).Channel = ch) ∧
    (∀ cl : ClientT, (SubscribeContext.mk ⟨cl⟩ "").Channel = "") ∧
    (∀ cl : ClientT, (UnsubscribeContext.mk ⟨cl⟩ "").Channel = "") ∧
    (∀ (cl : ClientT) (ch : String),
      (SubscribeContext.mk ⟨cl⟩ ch).Channel ≠ "" ↔ ch ≠ "") ∧
    (∀ (cl : ClientT) (ch : String),
      (UnsubscribeContext.mk ⟨cl⟩ ch).Channel ≠ "" ↔ ch ≠ "") :=
  ⟨fun _ _ => rfl, fun _ _ => rfl, fun _ => rfl, fun _ => rfl, fun _ _ => Iff.rfl,
    fun _ _ => Iff.rfl⟩

/-- Counterexample to C9: a PresenceContext with no channel and one that
names the same channel twice; so "Channels is non-empty and without
repeats for every value" is false. -/
theorem channels_set_counterexample :
    (PresenceContext.mk (EventContext.mk ()) []).Channels = [] ∧
    ¬ (PresenceContext.mk (EventContext.mk ()) ["news", "news"]).Channels.Nodup ∧
    ¬ (∀ c : PresenceContext Unit, c.Channels ≠ [] ∧ c.Channels.Nodup) :=
  ⟨rfl, by decide, fun h => (h ⟨⟨()⟩, []⟩).1 rfl⟩

/-- C9, amended: Channels of a PresenceContext is a list of channel names
the type does not constrain: for every client and every list, the empty one
and one with repeats included, the context built from them has that list as
its Channels; so Channels is non-empty and without repeats exactly when the
list the context was built from is. -/
theorem channels_is_the_given_list :
    (∀ (cl : ClientT) (chs : List String), (PresenceContext.mk ⟨cl⟩ chs).Channels = chs) ∧
    (∀ cl : ClientT, (PresenceContext.mk ⟨cl⟩ []).Channels = []) ∧
    (∀ (cl : ClientT) (ch : String),
      ¬ (PresenceContext.mk ⟨cl⟩ [ch, ch]).Channels.Nodup) ∧
    (∀ (cl : ClientT) (chs : List String),
      ((PresenceContext.mk ⟨cl⟩ chs).Channels ≠ [] ∧
        (PresenceContext.mk ⟨cl⟩ chs).Channels.Nodup) ↔ (chs ≠ [] ∧ chs.Nodup)) :=
  ⟨fun _ _ => rfl, fun _ => rfl, fun _ ch => by simp, fun _ _ => Iff.rfl⟩

/-! ## Dispatch and reply interpretation (modelled from the specification) -/

/-- C2: when a connect, subscribe, publish or RPC handler returns a reply
with both Error and Disconnect set, the net effect of the dispatch is
disconnection with that disconnect instruction; and the net effect of
every reply of every kind, and of every dispatch, is exactly one of: no
special action, business error reported, connection disconnected. -/
theorem disconnect_wins_and_effect_is_one_of_three :
    (∀ (notImplemented : ErrorT)
        (m : Mediator ContextT ClientT ErrorT DisconnectT PublicationT) (ctx : ContextT)
        (e : ErrorT) (d : DisconnectT),
      (∀ h c, m.Connect = some h → (h ctx c).Error = some e → (h ctx c).Disconnect = some d →
        (dispatch notImplemented m ctx (.Connect c)).effect = .disconnected d) ∧
      (∀ h c, m.Subscribe = some h → (h ctx c).Error = some e →
        (h ctx c).Disconnect = some d →
        (dispatch notImplemented m ctx (.Subscribe c)).effect = .disconnected d) ∧
      (∀ h c, m.Publish = some h → (h ctx c).Error = some e → (h ctx c).Disconnect = some d →
        (dispatch notImplemented m ctx (.Publish c)).effect = .disconnected d) ∧
      (∀ h c, m.RPC = some h → (h ctx c).Error = some e → (h ctx c).Disconnect = some d →
        (dispatch notImplemented m ctx (.RPC c)).effect = .disconnected d)) ∧
    (∀ (e : ErrorT) (d : DisconnectT) (data : Raw),
      (Reply.Connect ⟨some e, some d⟩).effect = .disconnected d ∧
      (Reply.Subscribe ⟨some e, some d⟩).effect = .disconnected d ∧
      (Reply.Publish ⟨some e, some d⟩).effect = .disconnected d ∧
      (Reply.RPC ⟨some e, some d, data⟩).effect = .disconnected d) ∧
    (∀ r : Reply ErrorT DisconnectT,
      (r.effect.isNoAction = true ∧ r.effect.isBusinessError = false ∧
        r.effect.isDisconnected = false) ∨
      (r.effect.isNoAction = false ∧ r.effect.isBusinessError = true ∧
        r.effect.isDisconnected = false) ∨
      (r.effect.isNoAction = false ∧ r.effect.isBusinessError = false ∧
        r.effect.isDisconnected = true)) ∧
    (∀ (notImplemented : ErrorT)
        (m : Mediator ContextT ClientT ErrorT DisconnectT PublicationT) (ctx : ContextT)
        (ev : Event ClientT DisconnectT PublicationT),
      ((dispatch notImplemented m ctx ev).effect.isNoAction = true ∧
        (dispatch notImplemented m ctx ev).effect.isBusinessError = false ∧
        (dispatch notImplemented m ctx ev).effect.isDisconnected = false) ∨
      ((dispatch notImplemented m ctx ev).effect.isNoAction = false ∧
        (dispatch notImplemented m ctx ev).effect.isBusinessError = true ∧
        (dispatch notImplemented m ctx ev).effect.isDisconnected = false) ∨
      ((dispatch notImplemented m ctx ev).effect.isNoAction = false ∧
        (dispatch notImplemented m ctx ev).effect.isBusinessError = false ∧
        (dispatch notImplemented m ctx ev).effect.isDisconnected = true)) := by
  have one_of_three : ∀ x : NetEffect ErrorT DisconnectT,
      (x.isNoAction = true ∧ x.isBusinessError = false ∧ x.isDisconnected = false) ∨
      (x.isNoAction = false ∧ x.isBusinessError = true ∧ x.isDisconnected = false) ∨
      (x.isNoAction = false ∧ x.isBusinessError = false ∧ x.isDisconnected = true) := by
    intro x
    cases x <;> simp [NetEffect.isNoAction, NetEffect.isBusinessError, NetEffect.isDisconnected]
  refine ⟨?_, fun _ _ _ => ⟨rfl, rfl, rfl, rfl⟩, fun r => one_of_three _,
    fun _ _ _ _ => one_of_three _⟩
  intro notImplemented m ctx e d
  refine ⟨?_, ?_, ?_, ?_⟩ <;> intro h c hm hE hD
  · simp [dispatch, hm, Outcome.ofEffect, ConnectReply.effect, hE, hD, interpret]
  · simp [dispatch, hm, Outcome.ofEffect, SubscribeReply.effect, hE, hD, interpret]
  · simp [dispatch, hm, interpretPublish, Outcome.ofEffect, PublishReply.effect, hE, hD,
      interpret]
  · simp [dispatch, hm, interpretRPC, Outcome.ofEffect, RPCReply.effect, hE, hD, interpret]

/-- Witness of C2: a connect handler returns the error "denied" together
with the disconnect instruction "shutdown"; the dispatch disconnects with
"shutdown". -/
theorem disconnect_wins_witness :
    (dispatch "not implemented" conflictingConnectMediator () (.Connect ⟨⟨()⟩⟩)).effect
      = .disconnected "shutdown" :=
  ((disconnect_wins_and_effect_is_one_of_three).1 "not implemented"
    conflictingConnectMediator () "denied" "shutdown").1
    (fun _ _ => ⟨some "denied", some "shutdown"⟩) ⟨⟨()⟩⟩ rfl rfl rfl

/-- C3: with the zero-value Mediator the dispatch of each of the nine event
kinds returns that kind's default policy: Connect and Subscribe are
accepted, Publish lets the publication of the context through unchanged,
Refresh changes nothing, Disconnect, Unsubscribe, Presence and Message have
no side effect, and RPC is answered with the "not implemented" business
error and no data. -/
theorem zero_mediator_applies_default_policy (notImplemented : ErrorT) (ctx : ContextT) :
    (∀ c : ConnectContext ClientT,
      dispatch notImplemented Mediator.zero ctx
        (.Connect c : Event ClientT DisconnectT PublicationT) = ⟨.noAction, none, none, none⟩) ∧
    (∀ c : DisconnectContext ClientT DisconnectT,
      dispatch notImplemented Mediator.zero ctx
        (.Disconnect c : Event ClientT DisconnectT PublicationT)
        = ⟨.noAction, none, none, none⟩) ∧
    (∀ c : SubscribeContext ClientT,
      dispatch notImplemented Mediator.zero ctx
        (.Subscribe c : Event ClientT DisconnectT PublicationT)
        = ⟨.noAction, none, none, none⟩) ∧
    (∀ c : UnsubscribeContext ClientT,
      dispatch notImplemented Mediator.zero ctx
        (.Unsubscribe c : Event ClientT DisconnectT PublicationT)
        = ⟨.noAction, none, none, none⟩) ∧
    (∀ c : PublishContext ClientT PublicationT,
      dispatch notImplemented Mediator.zero ctx
        (.Publish c : Event ClientT DisconnectT PublicationT)
        = ⟨.noAction, none, none, c.Publication⟩) ∧
    (∀ c : PresenceContext ClientT,
      dispatch notImplemented Mediator.zero ctx
        (.Presence c : Event ClientT DisconnectT PublicationT)
        = ⟨.noAction, none, none, none⟩) ∧
    (∀ c : RefreshContext ClientT,
      dispatch notImplemented Mediator.zero ctx
        (.Refresh c : Event ClientT DisconnectT PublicationT)
        = ⟨.noAction, none, none, none⟩) ∧
    (∀ c : RPCContext ClientT,
      dispatch notImplemented Mediator.zero ctx
        (.RPC c : Event ClientT DisconnectT PublicationT)
        = ⟨.businessError notImplemented, none, none, none⟩) ∧
    (∀ c : MessageContext ClientT,
      dispatch notImplemented Mediator.zero ctx
        (.Message c : Event ClientT DisconnectT PublicationT)
        = ⟨.noAction, none, none, none⟩) ∧
    (∀ ev : Event ClientT DisconnectT PublicationT,
      dispatch notImplemented Mediator.zero ctx ev = defaultPolicy notImplemented ev) :=
  ⟨fun _ => rfl, fun _ => rfl, fun _ => rfl, fun _ => rfl, fun _ => rfl, fun _ => rfl,
    fun _ => rfl, fun _ => rfl, fun _ => rfl, fun ev => by cases ev <;> rfl⟩

/-- C5: when the RPC handler of the registry returns, for a request, a reply
with neither Error nor Disconnect set, the response of the dispatch is
exactly the Data of that reply and the net effect is no special action; and
any other request for which the handler returns the same Data, again with
neither field set, gets the same response, whatever the payloads of the two
requests. -/
theorem rpc_response_is_handler_data (notImplemented : ErrorT)
    (m : Mediator ContextT ClientT ErrorT DisconnectT PublicationT)
    (h : RPCHandler ContextT ClientT ErrorT DisconnectT) (ctx : ContextT)
    (c : RPCContext ClientT) (hm : m.RPC = some h) (hE : (h ctx c).Error = none)
    (hD : (h ctx c).Disconnect = none) :
    (dispatch notImplemented m ctx (.RPC c)).response = some (h ctx c).Data ∧
    (dispatch notImplemented m ctx (.RPC c)).effect = .noAction ∧
    ∀ c2 : RPCContext ClientT, (h ctx c2).Error = none → (h ctx c2).Disconnect = none →
      (h ctx c2).Data = (h ctx c).Data →
      (dispatch notImplemented m ctx (.RPC c2)).response
        = (dispatch notImplemented m ctx (.RPC c)).response := by
  have key : ∀ x : RPCContext ClientT, (h ctx x).Error = none → (h ctx x).Disconnect = none →
      dispatch notImplemented m ctx (.RPC x) = ⟨.noAction, some (h ctx x).Data, none, none⟩ := by
    intro x hxE hxD
    simp [dispatch, hm, interpretRPC, RPCReply.effect, hxE, hxD, interpret]
  refine ⟨by rw [key c hE hD], by rw [key c hE hD], ?_⟩
  intro c2 hE2 hD2 hData
  rw [key c hE hD, key c2 hE2 hD2, hData]

/-- Witness of C5: the handler answers the bytes 1, 2, 3 to a request with
payload 9 and to a request with an empty payload; both get the response
1, 2, 3. -/
theorem rpc_response_witness :
    (dispatch "not implemented" constantRPCMediator () (.RPC ⟨⟨()⟩, [9]⟩)).response
      = some [1, 2, 3] ∧
    (dispatch "not implemented" constantRPCMediator () (.RPC ⟨⟨()⟩, []⟩)).response
      = (dispatch "not implemented" constantRPCMediator () (.RPC ⟨⟨()⟩, [9]⟩)).response :=
  ⟨(rpc_response_is_handler_data "not implemented" constantRPCMediator
      (fun _ _ => ⟨none, none, [1, 2, 3]⟩) () ⟨⟨()⟩, [9]⟩ rfl rfl rfl).1,
    (rpc_response_is_handler_data "not implemented" constantRPCMediator
      (fun _ _ => ⟨none, none, [1, 2, 3]⟩) () ⟨⟨()⟩, [9]⟩ rfl rfl rfl).2.2 ⟨⟨()⟩, []⟩
      rfl rfl rfl⟩

end Theorems

end Centrifuge
